import Mathlib

/-!
Verification development for the clinic-management backend (`main.py`,
`schemas.py`).  The Python endpoints are shallowly embedded as pure Lean
functions: datetimes become an absolute minute count (an `Int`, minutes since
0001-01-01 00:00 of the proleptic Gregorian calendar, exactly the ordering of
Python `datetime` values), the Mongo collections become Lean lists, and each
FastAPI handler becomes a function from the collection state and the request
to a result together with the new collection state.
-/

namespace Clinic

/-! ## Calendar arithmetic (the model of Python `datetime`)

These mirror the proleptic Gregorian calendar used by `datetime`:
a year is a leap year iff divisible by 4 and not by 100 unless by 400.
-/

def isLeap (y : Nat) : Bool :=
  (y % 4 == 0) && (!(y % 100 == 0) || (y % 400 == 0))

def daysInMonth (y m : Nat) : Nat :=
  if m = 2 then (if isLeap y then 29 else 28)
  else if m = 4 ∨ m = 6 ∨ m = 9 ∨ m = 11 then 30
  else 31

def daysBeforeYear (y : Nat) : Nat :=
  (y - 1) * 365 + (y - 1) / 4 - (y - 1) / 100 + (y - 1) / 400

def daysBeforeMonth (y m : Nat) : Nat :=
  let base : Nat :=
    match m with
    | 1 => 0 | 2 => 31 | 3 => 59 | 4 => 90 | 5 => 120 | 6 => 151
    | 7 => 181 | 8 => 212 | 9 => 243 | 10 => 273 | 11 => 304 | 12 => 334
    | _ => 0
  base + (if 2 < m ∧ isLeap y then 1 else 0)

/-- Absolute timeline position of a calendar instant, in minutes.  Python
`datetime` comparison and `timedelta` addition correspond to `Int` comparison
and addition on this encoding. -/
def toMinutes (y m d h mi : Nat) : Int :=
  (((((daysBeforeYear y + daysBeforeMonth y m + (d - 1)) * 24 + h) * 60 + mi : Nat) : Int))

/-! ## Model of `datetime.strptime` for the two fixed formats used by `main.py`

Python `_strptime` compiles `"%Y-%m-%d %H:%M"` to the regular expression
`(\d\d\d\d)-(1[0-2]|0[1-9]|[1-9])-(3[01]|[12]\d|0[1-9]|[1-9])\s+(2[0-3]|[0-1]\d|\d):([0-5]\d|\d)`
anchored at the start, requires the whole string to be consumed, and then
builds a `datetime`, which additionally rejects a day beyond the length of
the month and a year below 1.  Each `parse...` function below implements one
regex group; the alternatives differ only in length (two digits versus one)
and are always followed by a non-digit delimiter or the end of the input, so
ordered matching without backtracking is equivalent to the regex.
-/

def digitVal (c : Char) : Nat := c.toNat - 48

def isDigitIn (c : Char) (lo hi : Nat) : Bool :=
  c.isDigit && (lo ≤ digitVal c) && (digitVal c ≤ hi)

def parseY4 : List Char → Option (Nat × List Char)
  | a :: b :: c :: d :: rest =>
    if a.isDigit ∧ b.isDigit ∧ c.isDigit ∧ d.isDigit then
      some (digitVal a * 1000 + digitVal b * 100 + digitVal c * 10 + digitVal d, rest)
    else none
  | _ => none

def parseMonth : List Char → Option (Nat × List Char)
  | [] => none
  | '1' :: c :: rest =>
    if isDigitIn c 0 2 then some (10 + digitVal c, rest) else some (1, c :: rest)
  | c1 :: c2 :: rest =>
    if c1 = '0' ∧ isDigitIn c2 1 9 then some (digitVal c2, rest)
    else if isDigitIn c1 1 9 then some (digitVal c1, c2 :: rest)
    else none
  | c :: [] => if isDigitIn c 1 9 then some (digitVal c, []) else none

def parseDay : List Char → Option (Nat × List Char)
  | [] => none
  | '3' :: c :: rest =>
    if isDigitIn c 0 1 then some (30 + digitVal c, rest) else some (3, c :: rest)
  | c1 :: c2 :: rest =>
    if (c1 = '1' ∨ c1 = '2') ∧ c2.isDigit then some (digitVal c1 * 10 + digitVal c2, rest)
    else if c1 = '0' ∧ isDigitIn c2 1 9 then some (digitVal c2, rest)
    else if isDigitIn c1 1 9 then some (digitVal c1, c2 :: rest)
    else none
  | c :: [] => if isDigitIn c 1 9 then some (digitVal c, []) else none

def parseHour : List Char → Option (Nat × List Char)
  | [] => none
  | '2' :: c :: rest =>
    if isDigitIn c 0 3 then some (20 + digitVal c, rest) else some (2, c :: rest)
  | c1 :: c2 :: rest =>
    if (c1 = '0' ∨ c1 = '1') ∧ c2.isDigit then some (digitVal c1 * 10 + digitVal c2, rest)
    else if c1.isDigit then some (digitVal c1, c2 :: rest)
    else none
  | c :: [] => if c.isDigit then some (digitVal c, []) else none

def parseMinute : List Char → Option (Nat × List Char)
  | [] => none
  | c1 :: c2 :: rest =>
    if isDigitIn c1 0 5 ∧ c2.isDigit then some (digitVal c1 * 10 + digitVal c2, rest)
    else if c1.isDigit then some (digitVal c1, c2 :: rest)
    else none
  | c :: [] => if c.isDigit then some (digitVal c, []) else none

def expectChar (ch : Char) : List Char → Option (List Char)
  | c :: rest => if c = ch then some rest else none
  | [] => none

/-- Whitespace in a `strptime` format string matches one or more whitespace
characters of the input. -/
def skipSpaces : List Char → Option (List Char)
  | c :: rest => if c.isWhitespace then some (rest.dropWhile Char.isWhitespace) else none
  | [] => none

/-- Validation performed by the `datetime` constructor after the regex match:
the year must be at least 1 and the day must exist in the month.  Month,
hour and minute ranges are already guaranteed by the regex groups. -/
def validDate (y m d : Nat) : Bool :=
  (1 ≤ y) && (1 ≤ d) && (d ≤ daysInMonth y m)

/-- Model of `datetime.strptime(s, "%Y-%m-%d %H:%M")`: `none` corresponds to
the Python call raising `ValueError`. -/
def strptimeDateTime (s : String) : Option Int := do
  let cs := s.toList
  let (y, cs) ← parseY4 cs
  let cs ← expectChar '-' cs
  let (m, cs) ← parseMonth cs
  let cs ← expectChar '-' cs
  let (d, cs) ← parseDay cs
  let cs ← skipSpaces cs
  let (h, cs) ← parseHour cs
  let cs ← expectChar ':' cs
  let (mi, cs) ← parseMinute cs
  if cs.isEmpty && validDate y m d then pure (toMinutes y m d h mi) else none

/-- Model of `datetime.strptime(s, "%Y-%m-%d")`, used by the appointment
listing endpoint for `from_date` and `to_date`. -/
def strptimeDate (s : String) : Option Int := do
  let cs := s.toList
  let (y, cs) ← parseY4 cs
  let cs ← expectChar '-' cs
  let (m, cs) ← parseMonth cs
  let cs ← expectChar '-' cs
  let (d, cs) ← parseDay cs
  if cs.isEmpty && validDate y m d then pure (toMinutes y m d 0 0) else none

/-- One day of `timedelta(days=1)`, in minutes. -/
def oneDay : Int := 1440

/-! ## Data model (`schemas.py`) -/

/-- Appointment document (`schemas.Appointment`).  `starts_at` and `ends_at`
are absolute minute counts; `status` is one of `"scheduled"`, `"checked_in"`,
`"completed"`, `"cancelled"`, defaulted to `"scheduled"`. -/
structure Appointment where
  clinic_id : String
  doctor_id : String
  patient_id : String
  starts_at : Int
  ends_at : Int
  reason : Option String := none
  status : String := "scheduled"
deriving DecidableEq, Repr

/-- Request body of `POST /appointments` (`main.AppointmentRequest`). -/
structure AppointmentRequest where
  clinic_id : String
  doctor_id : String
  patient_id : String
  date : String
  start_time : String
  duration_minutes : Int := 30
  reason : Option String := none
deriving DecidableEq, Repr

/-- Embedded invoice line item (`schemas.InvoiceItem`).  The Python `float`
fields carry no arithmetic anywhere in the system, so they are embedded as
rationals. -/
structure InvoiceItem where
  name : String
  qty : Int := 1
  unit_price : Rat := 0
deriving DecidableEq, Repr

/-- Invoice document (`schemas.Invoice`). -/
structure Invoice where
  clinic_id : String
  appointment_id : String
  patient_id : String
  doctor_id : String
  items : List InvoiceItem := []
  discount : Rat := 0
  tax_rate : Rat := 0
  status : String := "unpaid"
deriving DecidableEq, Repr

/-- Request body of `POST /invoices` (`main.InvoiceCreateRequest`); note that
it has no `status` field. -/
structure InvoiceCreateRequest where
  clinic_id : String
  appointment_id : String
  patient_id : String
  doctor_id : String
  items : List InvoiceItem
  discount : Rat := 0
  tax_rate : Rat := 0
deriving DecidableEq, Repr

/-- Payment document (`schemas.Payment`). -/
structure Payment where
  clinic_id : String
  invoice_id : String
  amount : Rat
  method : String := "cash"
  notes : Option String := none
deriving DecidableEq, Repr

/-! ## Errors

`HTTPException(status_code, detail)` raised by a handler is surfaced with
that status; any other uncaught Python exception (such as the `ValueError`
escaping `list_appointments`) is surfaced by FastAPI as HTTP 500.
-/

inductive ApiError where
  | http (status : Nat) (detail : String)
  | unhandled (msg : String)
deriving DecidableEq, Repr

def httpStatus : ApiError → Nat
  | .http s _ => s
  | .unhandled _ => 500

/-! ## Store gateway

Modelled from the spec: `database.py` is not part of the given sources; §4.3
of the specification describes it.  `create_document` validates and inserts
the record and returns a store-assigned unique identifier as a string, here
the position of the new record; `get_documents` returns all records of the
collection matching the filter expression.  The filter expressions actually
built by `main.py` use only equality on string fields and the Mongo
comparison operators `$lt`, `$gt`, `$gte`, `$lte` on datetime fields, so the
filter language is embedded with exactly those forms.
-/

inductive QVal where
  | eqS : String → QVal
  | lt : Int → QVal
  | gt : Int → QVal
  | range : Option Int → Option Int → QVal
deriving DecidableEq, Repr

/-- Modelled from the spec: insertion into a collection, returning the
store-assigned identifier together with the new collection state. -/
def create_document {α : Type} (coll : List α) (record : α) : String × List α :=
  (toString coll.length, coll ++ [record])

/-- Field dispatch for evaluating one filter clause against one document of
the collection type `α`. -/
class DocRecord (α : Type) where
  fieldMatch : α → String × QVal → Bool

/-- Modelled from the spec: a query returns all records of the collection
matching every clause of the filter. -/
def get_documents {α : Type} [DocRecord α] (coll : List α)
    (filter : List (String × QVal)) : List α :=
  coll.filter (fun doc => filter.all (DocRecord.fieldMatch doc))

def apptFieldMatch (a : Appointment) : String × QVal → Bool
  | ("clinic_id", .eqS v) => a.clinic_id == v
  | ("doctor_id", .eqS v) => a.doctor_id == v
  | ("patient_id", .eqS v) => a.patient_id == v
  | ("starts_at", .lt v) => decide (a.starts_at < v)
  | ("ends_at", .gt v) => decide (v < a.ends_at)
  | ("starts_at", .range lo hi) =>
      (lo.all fun l => decide (l ≤ a.starts_at)) && (hi.all fun h => decide (a.starts_at ≤ h))
  | _ => false

instance : DocRecord Appointment := ⟨apptFieldMatch⟩

def invoiceFieldMatch (inv : Invoice) : String × QVal → Bool
  | ("clinic_id", .eqS v) => inv.clinic_id == v
  | ("status", .eqS v) => inv.status == v
  | _ => false

instance : DocRecord Invoice := ⟨invoiceFieldMatch⟩

def paymentFieldMatch (p : Payment) : String × QVal → Bool
  | ("clinic_id", .eqS v) => p.clinic_id == v
  | ("invoice_id", .eqS v) => p.invoice_id == v
  | _ => false

instance : DocRecord Payment := ⟨paymentFieldMatch⟩

/-! ## Endpoints (`main.py`) -/

/-- Embedding of `POST /appointments` (`main.create_appointment`, lines
102 to 129).  The result pairs the HTTP outcome with the appointment
collection after the call. -/
def create_appointment (coll : List Appointment) (req : AppointmentRequest) :
    Except ApiError String × List Appointment :=
  match strptimeDateTime (req.date ++ " " ++ req.start_time) with
  | none => (.error (.http 400 "Invalid date or time format"), coll)
  | some starts_at =>
    let ends_at := starts_at + req.duration_minutes
    let existing := get_documents coll
      [("doctor_id", QVal.eqS req.doctor_id),
       ("starts_at", QVal.lt ends_at),
       ("ends_at", QVal.gt starts_at)]
    if existing.isEmpty then
      let appt : Appointment :=
        { clinic_id := req.clinic_id
          doctor_id := req.doctor_id
          patient_id := req.patient_id
          starts_at := starts_at
          ends_at := ends_at
          reason := req.reason
          status := "scheduled" }
      let inserted := create_document coll appt
      (.ok inserted.1, inserted.2)
    else
      (.error (.http 409 "overlap"), coll)

/-- Python truthiness of an optional string parameter: present and
non-empty. -/
def isTruthy : Option String → Bool
  | none => false
  | some s => !s.isEmpty

/-- Parsing of a truthy optional date parameter inside `list_appointments`;
the `ValueError` raised by `strptime` on a bad string is not caught by the
handler. -/
def parseIfTruthy (o : Option String) : Except ApiError (Option Int) :=
  if isTruthy o then
    match strptimeDate (o.getD "") with
    | some t => .ok (some t)
    | none => .error (.unhandled "ValueError")
  else .ok none

/-- Filter expression built by `GET /appointments` (`main.list_appointments`,
lines 131 to 148): equality clauses for each truthy id parameter, then a
range clause on `starts_at` whose `$gte` bound is the parsed `from_date` and
whose `$lte` bound is the parsed `to_date` plus one day. -/
def appointments_query (clinic_id doctor_id patient_id from_date to_date : Option String) :
    Except ApiError (List (String × QVal)) :=
  let q : List (String × QVal) :=
    (if isTruthy clinic_id then [("clinic_id", QVal.eqS (clinic_id.getD ""))] else []) ++
    (if isTruthy doctor_id then [("doctor_id", QVal.eqS (doctor_id.getD ""))] else []) ++
    (if isTruthy patient_id then [("patient_id", QVal.eqS (patient_id.getD ""))] else [])
  if isTruthy from_date || isTruthy to_date then
    match parseIfTruthy from_date with
    | .error e => .error e
    | .ok lo =>
      match parseIfTruthy to_date with
      | .error e => .error e
      | .ok hi => .ok (q ++ [("starts_at", QVal.range lo (hi.map (· + oneDay)))])
  else
    .ok q

/-- Embedding of `GET /appointments`. -/
def list_appointments (coll : List Appointment)
    (clinic_id doctor_id patient_id from_date to_date : Option String) :
    Except ApiError (List Appointment) :=
  (appointments_query clinic_id doctor_id patient_id from_date to_date).map
    (get_documents coll)

/-- Embedding of `POST /invoices` (`main.create_invoice`, lines 160 to 172):
the stored record is built from the request with `status` left at its schema
default `"unpaid"`. -/
def create_invoice (coll : List Invoice) (req : InvoiceCreateRequest) :
    Except ApiError String × List Invoice :=
  let invoice : Invoice :=
    { clinic_id := req.clinic_id
      appointment_id := req.appointment_id
      patient_id := req.patient_id
      doctor_id := req.doctor_id
      items := req.items
      discount := req.discount
      tax_rate := req.tax_rate }
  let inserted := create_document coll invoice
  (.ok inserted.1, inserted.2)

/-- Filter expression built by `GET /invoices` (`main.list_invoices`, lines
174 to 181). -/
def invoices_query (clinic_id status : Option String) : List (String × QVal) :=
  (if isTruthy clinic_id then [("clinic_id", QVal.eqS (clinic_id.getD ""))] else []) ++
  (if isTruthy status then [("status", QVal.eqS (status.getD ""))] else [])

/-- Embedding of `GET /invoices`. -/
def list_invoices (coll : List Invoice) (clinic_id status : Option String) :
    List Invoice :=
  get_documents coll (invoices_query clinic_id status)

/-- Filter expression built by `GET /payments` (`main.list_payments`, lines
188 to 195). -/
def payments_query (clinic_id invoice_id : Option String) : List (String × QVal) :=
  (if isTruthy clinic_id then [("clinic_id", QVal.eqS (clinic_id.getD ""))] else []) ++
  (if isTruthy invoice_id then [("invoice_id", QVal.eqS (invoice_id.getD ""))] else [])

/-- Embedding of `GET /payments`. -/
def list_payments (coll : List Payment) (clinic_id invoice_id : Option String) :
    List Payment :=
  get_documents coll (payments_query clinic_id invoice_id)

/-- State of the three collections read by the analytics endpoint. -/
structure Store where
  appointments : List Appointment
  invoices : List Invoice
  payments : List Payment
deriving DecidableEq, Repr

/-- Embedding of `GET /analytics/summary` (`main.analytics_summary`, lines
198 to 206): the `period` and `date` parameters appear in the signature as
in the source and are never read. -/
def analytics_summary (store : Store) (clinic_id : String)
    (period : String) (date : Option String) :
    List Appointment × List Invoice × List Payment :=
  (get_documents store.appointments [("clinic_id", QVal.eqS clinic_id)],
   get_documents store.invoices [("clinic_id", QVal.eqS clinic_id)],
   get_documents store.payments [("clinic_id", QVal.eqS clinic_id)])

/-- Filter-builder rule as the specification words it, for comparison with
the queries built by the endpoints: a present and non-empty optional
parameter contributes exactly one equality clause on its field, an absent or
empty one contributes nothing. -/
def specEqualityClause (field : String) (param : Option String) : List (String × QVal) :=
  match param with
  | none => []
  | some s => if s.isEmpty then [] else [(field, QVal.eqS s)]


/-! ## Helper lemmas -/

lemma overlap_clause_iff (did : String) (lo hi : Int) (a : Appointment) :
    ([("doctor_id", QVal.eqS did),
      ("starts_at", QVal.lt hi),
      ("ends_at", QVal.gt lo)].all (DocRecord.fieldMatch a) = true) ↔
      (a.doctor_id = did ∧ a.starts_at < hi ∧ lo < a.ends_at) := by
  simp [DocRecord.fieldMatch, apptFieldMatch]

lemma overlap_get_documents_eq_nil_iff (coll : List Appointment)
    (did : String) (lo hi : Int) :
    get_documents coll
        [("doctor_id", QVal.eqS did),
         ("starts_at", QVal.lt hi),
         ("ends_at", QVal.gt lo)] = [] ↔
      ∀ a ∈ coll, ¬(a.doctor_id = did ∧ a.starts_at < hi ∧ lo < a.ends_at) := by
  rw [get_documents, List.filter_eq_nil_iff]
  constructor
  · intro h a ha hc
    exact h a ha ((overlap_clause_iff did lo hi a).mpr hc)
  · intro h a ha hb
    exact h a ha ((overlap_clause_iff did lo hi a).mp hb)

/-- Claim C1: with a parsed start instant, appointment creation fails with
HTTP 409 detail "overlap" exactly when some existing appointment of the same
doctor satisfies existing.starts_at < new.ends_at and existing.ends_at >
new.starts_at, where new.ends_at is the start plus the requested duration. -/
theorem create_appointment_conflict_iff (coll : List Appointment)
    (req : AppointmentRequest) (st : Int)
    (hparse : strptimeDateTime (req.date ++ " " ++ req.start_time) = some st) :
    (create_appointment coll req).1 = Except.error (ApiError.http 409 "overlap") ↔
      ∃ a ∈ coll, a.doctor_id = req.doctor_id ∧
        a.starts_at < st + req.duration_minutes ∧ st < a.ends_at := by
  unfold create_appointment
  rw [hparse]
  dsimp only
  constructor
  · intro h
    by_contra hno
    have hno2 : ∀ a ∈ coll,
        ¬(a.doctor_id = req.doctor_id ∧
          a.starts_at < st + req.duration_minutes ∧ st < a.ends_at) := by
      intro a ha hc
      exact hno ⟨a, ha, hc⟩
    have hnil :
        get_documents coll
          [("doctor_id", QVal.eqS req.doctor_id),
           ("starts_at", QVal.lt (st + req.duration_minutes)),
           ("ends_at", QVal.gt st)] = [] :=
      (overlap_get_documents_eq_nil_iff coll req.doctor_id st
        (st + req.duration_minutes)).mpr hno2
    rw [hnil] at h
    simp at h
  · rintro ⟨a, ha, hc⟩
    have hne :
        get_documents coll
          [("doctor_id", QVal.eqS req.doctor_id),
           ("starts_at", QVal.lt (st + req.duration_minutes)),
           ("ends_at", QVal.gt st)] ≠ [] := by
      intro h0
      exact (overlap_get_documents_eq_nil_iff coll req.doctor_id st
        (st + req.duration_minutes)).mp h0 a ha hc
    have hfalse :
        (get_documents coll
          [("doctor_id", QVal.eqS req.doctor_id),
           ("starts_at", QVal.lt (st + req.duration_minutes)),
           ("ends_at", QVal.gt st)]).isEmpty = false := by
      rw [Bool.eq_false_iff]
      intro hx
      exact hne (List.isEmpty_iff.mp hx)
    rw [hfalse]
    simp

/-- Witness for claim C1 at a concrete conflicting request. -/
theorem create_appointment_conflict_iff_witness :
    (create_appointment
      [{ clinic_id := "c", doctor_id := "d", patient_id := "p",
         starts_at := 1064015160, ends_at := 1064015190,
         reason := none, status := "scheduled" }]
      { clinic_id := "c", doctor_id := "d", patient_id := "p2",
        date := "2024-01-15", start_time := "10:15",
        duration_minutes := 30, reason := none }).1 =
      Except.error (ApiError.http 409 "overlap") :=
  (create_appointment_conflict_iff
    [{ clinic_id := "c", doctor_id := "d", patient_id := "p",
       starts_at := 1064015160, ends_at := 1064015190,
       reason := none, status := "scheduled" }]
    { clinic_id := "c", doctor_id := "d", patient_id := "p2",
      date := "2024-01-15", start_time := "10:15",
      duration_minutes := 30, reason := none }
    1064015175 rfl).mpr
    ⟨{ clinic_id := "c", doctor_id := "d", patient_id := "p",
       starts_at := 1064015160, ends_at := 1064015190,
       reason := none, status := "scheduled" },
     by simp, rfl, by decide, by decide⟩

/-- Claim C2 (code bug): the upper bound built from to_date is the Mongo
operator $lte with value to_date plus one day, so an appointment starting
exactly at midnight of the day after to_date is still admitted, although the
stated filter (strictly less than the start of the day after to_date) and the
source comment "include entire day" exclude it.  Here 1064016000 is the
parsed instant 2024-01-16 00:00, and listing with to_date 2024-01-15 returns
the appointment starting at that instant; no lower bound is applied. -/
theorem list_appointments_to_date_includes_next_midnight :
    strptimeDate "2024-01-16" = some 1064016000 ∧
    list_appointments
      [{ clinic_id := "c", doctor_id := "d", patient_id := "p",
         starts_at := 1064016000, ends_at := 1064016030,
         reason := none, status := "scheduled" }]
      none none none none (some "2024-01-15") =
      Except.ok
        [{ clinic_id := "c", doctor_id := "d", patient_id := "p",
           starts_at := 1064016000, ends_at := 1064016030,
           reason := none, status := "scheduled" }] :=
  ⟨rfl, rfl⟩

/-- Claim C3, counterexample: with an unparseable from_date the listing
endpoint does not fail with HTTP 400; the ValueError raised by strptime is
not caught by the handler, so it surfaces as HTTP 500. -/
theorem list_appointments_malformed_date_not_400 :
    list_appointments [] none none none (some "2024-13-99") none =
      Except.error (ApiError.unhandled "ValueError") ∧
    httpStatus (ApiError.unhandled "ValueError") = 500 ∧
    httpStatus (ApiError.unhandled "ValueError") ≠ 400 :=
  ⟨rfl, rfl, by decide⟩

/-- Claim C3 as amended: when a supplied from_date or to_date does not parse
in the format YYYY-MM-DD, the listing operation fails with the uncaught
ValueError of strptime, surfaced as HTTP 500, not with a ValidationError as
HTTP 400. -/
theorem list_appointments_malformed_date_unhandled (coll : List Appointment)
    (clinic_id doctor_id patient_id from_date to_date : Option String)
    (hbad : (isTruthy from_date = true ∧ strptimeDate (from_date.getD "") = none) ∨
            (isTruthy to_date = true ∧ strptimeDate (to_date.getD "") = none)) :
    list_appointments coll clinic_id doctor_id patient_id from_date to_date =
      Except.error (ApiError.unhandled "ValueError") ∧
    httpStatus (ApiError.unhandled "ValueError") = 500 := by
  refine ⟨?_, rfl⟩
  unfold list_appointments appointments_query parseIfTruthy
  rcases hbad with ⟨hft, hfp⟩ | ⟨htt, htp⟩
  · simp [hft, hfp, Except.map]
  · rw [htt]
    simp only [Bool.or_true, if_true]
    cases hfd : isTruthy from_date with
    | false => simp [hfd, htt, htp, Except.map]
    | true =>
      cases hsp : strptimeDate (from_date.getD "") with
      | none => simp [hfd, hsp, Except.map]
      | some t => simp [hfd, hsp, htt, htp, Except.map]

/-- Witness for amended claim C3 at a concrete malformed to_date. -/
theorem list_appointments_malformed_date_unhandled_witness :
    list_appointments [] none none none none (some "bad") =
      Except.error (ApiError.unhandled "ValueError") ∧
    httpStatus (ApiError.unhandled "ValueError") = 500 :=
  list_appointments_malformed_date_unhandled [] none none none none (some "bad")
    (Or.inr ⟨rfl, rfl⟩)

/-- Claim C4, counterexample: a request with duration_minutes zero passes the
overlap check and persists a record with ends_at equal to starts_at, so the
stated invariant ends_at > starts_at does not hold for every persisted
record. -/
theorem create_appointment_zero_duration_counterexample :
    (create_appointment []
      { clinic_id := "c", doctor_id := "d", patient_id := "p",
        date := "2024-01-15", start_time := "10:00",
        duration_minutes := 0, reason := none }).2 =
      [{ clinic_id := "c", doctor_id := "d", patient_id := "p",
         starts_at := 1064015160, ends_at := 1064015160,
         reason := none, status := "scheduled" }] ∧
    ((create_appointment []
      { clinic_id := "c", doctor_id := "d", patient_id := "p",
        date := "2024-01-15", start_time := "10:00",
        duration_minutes := 0, reason := none }).2.all
      (fun a => decide (a.starts_at < a.ends_at))) = false :=
  ⟨rfl, rfl⟩

/-- Claim C4 as amended: every appointment record persisted by a successful
creation with a positive duration_minutes satisfies ends_at > starts_at; a
zero or negative duration persists a degenerate or inverted interval. -/
theorem create_appointment_pos_duration_interval (coll : List Appointment)
    (req : AppointmentRequest) (newId : String) (coll2 : List Appointment)
    (hdur : 0 < req.duration_minutes)
    (hok : create_appointment coll req = (Except.ok newId, coll2)) :
    ∃ a : Appointment, coll2 = coll ++ [a] ∧ a.starts_at < a.ends_at := by
  unfold create_appointment at hok
  cases hp : strptimeDateTime (req.date ++ " " ++ req.start_time) with
  | none =>
    rw [hp] at hok
    simp at hok
  | some st =>
    rw [hp] at hok
    dsimp only at hok
    by_cases hE :
        (get_documents coll
          [("doctor_id", QVal.eqS req.doctor_id),
           ("starts_at", QVal.lt (st + req.duration_minutes)),
           ("ends_at", QVal.gt st)]).isEmpty
    · rw [if_pos hE] at hok
      refine ⟨{ clinic_id := req.clinic_id, doctor_id := req.doctor_id,
                patient_id := req.patient_id, starts_at := st,
                ends_at := st + req.duration_minutes, reason := req.reason,
                status := "scheduled" }, ?_, ?_⟩
      · have := congrArg Prod.snd hok
        simpa [create_document] using this.symm
      · simpa using lt_add_of_pos_right st hdur
    · rw [if_neg hE] at hok
      simp at hok

/-- Witness for amended claim C4 at a concrete 30-minute request. -/
theorem create_appointment_pos_duration_interval_witness :
    ∃ a : Appointment,
      [({ clinic_id := "c", doctor_id := "d", patient_id := "p",
          starts_at := 1064015160, ends_at := 1064015190,
          reason := none, status := "scheduled" } : Appointment)] = [] ++ [a] ∧
      a.starts_at < a.ends_at :=
  create_appointment_pos_duration_interval []
    { clinic_id := "c", doctor_id := "d", patient_id := "p",
      date := "2024-01-15", start_time := "10:00",
      duration_minutes := 30, reason := none }
    "0"
    [{ clinic_id := "c", doctor_id := "d", patient_id := "p",
       starts_at := 1064015160, ends_at := 1064015190,
       reason := none, status := "scheduled" }]
    (by decide) rfl

/-- Claim C5: whenever the concatenation of date and start_time does not
parse under the fixed format, creation fails with HTTP 400 and the store is
untouched; the impossible calendar date 2024-02-30 fails parsing while the
leap day 2024-02-29 parses. -/
theorem create_appointment_parse_validation :
    (∀ (coll : List Appointment) (req : AppointmentRequest),
        strptimeDateTime (req.date ++ " " ++ req.start_time) = none →
        create_appointment coll req =
          (Except.error (ApiError.http 400 "Invalid date or time format"), coll)) ∧
    strptimeDateTime ("2024-02-30" ++ " " ++ "10:00") = none ∧
    (strptimeDateTime ("2024-02-29" ++ " " ++ "10:00")).isSome = true := by
  refine ⟨?_, rfl, rfl⟩
  intro coll req h
  unfold create_appointment
  rw [h]

/-- Witness for claim C5 at the impossible calendar date. -/
theorem create_appointment_parse_validation_witness :
    create_appointment []
      { clinic_id := "c", doctor_id := "d", patient_id := "p",
        date := "2024-02-30", start_time := "10:00",
        duration_minutes := 30, reason := none } =
      (Except.error (ApiError.http 400 "Invalid date or time format"), []) :=
  create_appointment_parse_validation.1 []
    { clinic_id := "c", doctor_id := "d", patient_id := "p",
      date := "2024-02-30", start_time := "10:00",
      duration_minutes := 30, reason := none }
    rfl

/-- Claim C6: the overlap query carries no status clause, so an existing
overlapping appointment of the same doctor blocks creation whatever its
status is, in particular when it is cancelled. -/
theorem create_appointment_cancelled_blocks (coll : List Appointment)
    (req : AppointmentRequest) (st : Int) (a : Appointment)
    (hparse : strptimeDateTime (req.date ++ " " ++ req.start_time) = some st)
    (hmem : a ∈ coll) (hdoc : a.doctor_id = req.doctor_id)
    (hlt : a.starts_at < st + req.duration_minutes) (hgt : st < a.ends_at) :
    create_appointment coll req = (Except.error (ApiError.http 409 "overlap"), coll) := by
  unfold create_appointment
  rw [hparse]
  dsimp only
  have hfalse :
      (get_documents coll
        [("doctor_id", QVal.eqS req.doctor_id),
         ("starts_at", QVal.lt (st + req.duration_minutes)),
         ("ends_at", QVal.gt st)]).isEmpty = false := by
    rw [Bool.eq_false_iff]
    intro hx
    exact (overlap_get_documents_eq_nil_iff coll req.doctor_id st
      (st + req.duration_minutes)).mp (List.isEmpty_iff.mp hx) a hmem ⟨hdoc, hlt, hgt⟩
  rw [hfalse]
  simp

/-- Witness for claim C6: a cancelled overlapping appointment blocks the
slot. -/
theorem create_appointment_cancelled_blocks_witness :
    create_appointment
      [{ clinic_id := "c", doctor_id := "d", patient_id := "p",
         starts_at := 1064015160, ends_at := 1064015190,
         reason := none, status := "cancelled" }]
      { clinic_id := "c", doctor_id := "d", patient_id := "p2",
        date := "2024-01-15", start_time := "10:15",
        duration_minutes := 30, reason := none } =
      (Except.error (ApiError.http 409 "overlap"),
       [{ clinic_id := "c", doctor_id := "d", patient_id := "p",
          starts_at := 1064015160, ends_at := 1064015190,
          reason := none, status := "cancelled" }]) :=
  create_appointment_cancelled_blocks
    [{ clinic_id := "c", doctor_id := "d", patient_id := "p",
       starts_at := 1064015160, ends_at := 1064015190,
       reason := none, status := "cancelled" }]
    { clinic_id := "c", doctor_id := "d", patient_id := "p2",
      date := "2024-01-15", start_time := "10:15",
      duration_minutes := 30, reason := none }
    1064015175
    { clinic_id := "c", doctor_id := "d", patient_id := "p",
      starts_at := 1064015160, ends_at := 1064015190,
      reason := none, status := "cancelled" }
    rfl (by simp) rfl (by decide) (by decide)

/-- Claim C7: when parsing succeeds and the overlap query is empty, creation
persists exactly one new record with status scheduled, the parsed start, the
start plus duration as end, and the references and reason of the request,
returning the store-assigned identifier; when the overlap query is
non-empty, the collection is unchanged. -/
theorem create_appointment_success_persists (coll : List Appointment)
    (req : AppointmentRequest) (st : Int)
    (hparse : strptimeDateTime (req.date ++ " " ++ req.start_time) = some st) :
    (get_documents coll
        [("doctor_id", QVal.eqS req.doctor_id),
         ("starts_at", QVal.lt (st + req.duration_minutes)),
         ("ends_at", QVal.gt st)] = [] →
      create_appointment coll req =
        (Except.ok (toString coll.length),
         coll ++ [{ clinic_id := req.clinic_id, doctor_id := req.doctor_id,
                    patient_id := req.patient_id, starts_at := st,
                    ends_at := st + req.duration_minutes, reason := req.reason,
                    status := "scheduled" }])) ∧
    (get_documents coll
        [("doctor_id", QVal.eqS req.doctor_id),
         ("starts_at", QVal.lt (st + req.duration_minutes)),
         ("ends_at", QVal.gt st)] ≠ [] →
      (create_appointment coll req).2 = coll) := by
  constructor
  · intro hnil
    unfold create_appointment
    rw [hparse]
    dsimp only
    rw [hnil]
    rfl
  · intro hne
    unfold create_appointment
    rw [hparse]
    dsimp only
    have hfalse :
        (get_documents coll
          [("doctor_id", QVal.eqS req.doctor_id),
           ("starts_at", QVal.lt (st + req.duration_minutes)),
           ("ends_at", QVal.gt st)]).isEmpty = false := by
      rw [Bool.eq_false_iff]
      intro hx
      exact hne (List.isEmpty_iff.mp hx)
    rw [hfalse]
    simp

/-- Witness for claim C7 on the empty collection. -/
theorem create_appointment_success_persists_witness :
    create_appointment []
      { clinic_id := "c", doctor_id := "d", patient_id := "p",
        date := "2024-01-15", start_time := "10:00",
        duration_minutes := 30, reason := none } =
      (Except.ok "0",
       [{ clinic_id := "c", doctor_id := "d", patient_id := "p",
          starts_at := 1064015160, ends_at := 1064015190,
          reason := none, status := "scheduled" }]) :=
  (create_appointment_success_persists []
    { clinic_id := "c", doctor_id := "d", patient_id := "p",
      date := "2024-01-15", start_time := "10:00",
      duration_minutes := 30, reason := none }
    1064015160 rfl).1 rfl

lemma specEqualityClause_eq_truthy (f : String) (o : Option String) :
    specEqualityClause f o =
      if isTruthy o then [(f, QVal.eqS (o.getD ""))] else [] := by
  cases o with
  | none => rfl
  | some s =>
    by_cases h : s.isEmpty <;> simp [specEqualityClause, isTruthy, h]

/-- Claim C8: for the appointments, invoices and payments listing endpoints,
each present and non-empty optional parameter contributes exactly one
equality clause on its field, an absent or empty parameter contributes
nothing, and the empty filter matches every record of the collection. -/
theorem list_query_equality_clauses :
    (∀ clinic_id doctor_id patient_id : Option String,
        appointments_query clinic_id doctor_id patient_id none none =
          Except.ok (specEqualityClause "clinic_id" clinic_id ++
                     specEqualityClause "doctor_id" doctor_id ++
                     specEqualityClause "patient_id" patient_id)) ∧
    (∀ clinic_id status : Option String,
        invoices_query clinic_id status =
          specEqualityClause "clinic_id" clinic_id ++
          specEqualityClause "status" status) ∧
    (∀ clinic_id invoice_id : Option String,
        payments_query clinic_id invoice_id =
          specEqualityClause "clinic_id" clinic_id ++
          specEqualityClause "invoice_id" invoice_id) ∧
    (∀ coll : List Appointment, get_documents coll [] = coll) ∧
    (∀ coll : List Invoice, get_documents coll [] = coll) ∧
    (∀ coll : List Payment, get_documents coll [] = coll) := by
  refine ⟨?_, ?_, ?_, ?_, ?_, ?_⟩
  · intro c d p
    simp [appointments_query, specEqualityClause_eq_truthy, isTruthy]
  · intro c st
    simp [invoices_query, specEqualityClause_eq_truthy]
  · intro c i
    simp [payments_query, specEqualityClause_eq_truthy]
  · intro coll
    simp [get_documents]
  · intro coll
    simp [get_documents]
  · intro coll
    simp [get_documents]

/-- Claim C9: the create-invoice request has no status field and the stored
record is built with the schema default, so every invoice persisted by the
creation endpoint has status unpaid. -/
theorem create_invoice_status_unpaid (coll : List Invoice) (req : InvoiceCreateRequest) :
    create_invoice coll req =
      (Except.ok (toString coll.length),
       coll ++ [{ clinic_id := req.clinic_id, appointment_id := req.appointment_id,
                  patient_id := req.patient_id, doctor_id := req.doctor_id,
                  items := req.items, discount := req.discount,
                  tax_rate := req.tax_rate, status := "unpaid" }]) ∧
    ∀ inv ∈ (create_invoice coll req).2, inv ∈ coll ∨ inv.status = "unpaid" := by
  constructor
  · rfl
  · intro inv hmem
    simp only [create_invoice, create_document, List.mem_append,
      List.mem_singleton] at hmem
    rcases hmem with h | h
    · exact Or.inl h
    · subst h
      exact Or.inr rfl

/-- Claim C10: the analytics summary ignores its period and date parameters
and returns, unaggregated, exactly the appointments, invoices and payments
whose clinic_id equals the given one. -/
theorem analytics_summary_ignores_period_and_date (store : Store)
    (clinic_id : String) (p1 p2 : String) (d1 d2 : Option String) :
    analytics_summary store clinic_id p1 d1 = analytics_summary store clinic_id p2 d2 ∧
    analytics_summary store clinic_id p1 d1 =
      (store.appointments.filter (fun a => a.clinic_id == clinic_id),
       store.invoices.filter (fun i => i.clinic_id == clinic_id),
       store.payments.filter (fun q => q.clinic_id == clinic_id)) := by
  constructor
  · rfl
  · simp [analytics_summary, get_documents, apptFieldMatch, invoiceFieldMatch,
      paymentFieldMatch, DocRecord.fieldMatch]

end Clinic
